import Mathlib

/-!
Verification of the tagtrack bulk-upload reconciliation pipeline, tag codec
picture handling, retag propagation policy and field inheritance resolver,
shallowly embedded from the Python sources (tagtrack/routers/songs.py,
tagtrack/tags.py, tagtrack/signals.py, tagtrack/utils.py, tagtrack/models.py).

Python dictionaries are modelled as insertion-ordered association lists,
dictionary fields that may be absent or None as Option, Python truthiness
of the relevant value classes by explicit predicates, and temporary image
files by natural-number handles.
-/

namespace Tagtrack

/-- Python truthiness of an optional string value: None and the empty string
are falsy. -/
def py_truthy_str : Option String → Bool
  | none => false
  | some s => s != ""

/-- Python truthiness of an optional integer value: None and 0 are falsy. -/
def py_truthy_int : Option Int → Bool
  | none => false
  | some n => n != 0

/-- Python truthiness of an optional file value (a Django FieldFile with no
file behaves falsy). -/
def py_truthy_file : Option Nat → Bool
  | none => false
  | some _ => true

/-- In-place update of one key of an insertion-ordered dictionary; a missing
key leaves the dictionary unchanged. -/
def aupdate {α β : Type} [BEq α] (key : α) (v : β) : List (α × β) → List (α × β)
  | [] => []
  | (k, w) :: rest => if k == key then (k, v) :: rest else (k, w) :: aupdate key v rest

/-- An embedded picture frame as the reconciliation code consumes it
(mutagen APIC): a payload handle, whether its mime type is usable (not the
"->" URL marker and with a guessable file extension), and whether the
payload verifies as a decodable image. -/
structure Apic where
  payload : Nat
  mime_ok : Bool
  image_ok : Bool
deriving Repr, DecidableEq

/-- utils.make_tempfile_from_apic_frame: no file for an absent frame or the
"->" mime marker; otherwise the frame is materialized as a temporary image
file, dropped when no extension can be guessed from the mime type or the
payload is not a valid image. -/
def make_tempfile_from_apic_frame : Option Apic → Option Nat
  | none => none
  | some f => if f.mime_ok && f.image_ok then some f.payload else none

/-- One artist entry of a codec metadata record: a display name and an
optional embedded picture. -/
structure ArtistMeta where
  name : String
  image : Option Apic
deriving Repr, DecidableEq

/-- The album sub-record of a codec metadata record. The album artist is
carried as an artist record with a name, which is how the reconciliation
code in routers/songs.py reads it. -/
structure AlbumMeta where
  name : String
  artist : Option ArtistMeta
  image : Option Apic
  genre : Option String
  year : Option Int
deriving Repr, DecidableEq

/-- A per-file normalized metadata record as returned by the tag codecs and
consumed by the upload reconciliation engine. -/
structure SongMeta where
  name : String
  year : Int
  genre : Option String
  duration : Nat
  number : Int
  image : Option Apic
  artists : List ArtistMeta
  album : Option AlbumMeta
deriving Repr, DecidableEq

/-- An entry of the in-batch artists dictionary (the data dict stored by
add_artists_from_metadata): name plus materialized temp image. -/
structure BatchArtist where
  name : String
  image : Option Nat
deriving Repr, DecidableEq

/-- An entry of the in-batch albums dictionary (the data dict stored by
add_album_from_metadata). -/
structure BatchAlbum where
  name : String
  artist : Option ArtistMeta
  image : Option Nat
  genre : Option String
  year : Option Int
deriving Repr, DecidableEq

/-- Key of the in-batch albums dictionary: (album name, album-artist name). -/
abbrev AlbumKey := String × Option String

/-- routers/songs.py add_artists_from_metadata, lines 277-278: when the
metadata has an album with an album artist, that artist is appended to the
song artist list before the accumulation loop runs. -/
def merged_artists (m : SongMeta) : List ArtistMeta :=
  match m.album with
  | some alb =>
      match alb.artist with
      | some aa => m.artists ++ [aa]
      | none => m.artists
  | none => m.artists

/-- Body of the accumulation loop of add_artists_from_metadata for one
artist record: first occurrence of a name inserts its data with the
materialized image; a later occurrence only backfills a still-missing image
(the guard reads the image slot of the stored data dict). -/
def add_artist_step (artists : List (String × BatchArtist)) (art : ArtistMeta) :
    List (String × BatchArtist) :=
  let im := make_tempfile_from_apic_frame art.image
  let key := art.name
  match List.lookup key artists with
  | none => artists ++ [(key, ⟨art.name, im⟩)]
  | some entry =>
      if im.isSome && entry.image.isNone then
        aupdate key ⟨entry.name, im⟩ artists
      else artists

/-- routers/songs.py add_artists_from_metadata: folds every (merged) artist
of one file into the batch dictionary and returns the list of artist names
used for the song (the names of the stored entries, in loop order). -/
def add_artists_from_metadata (m : SongMeta) (artists : List (String × BatchArtist)) :
    List (String × BatchArtist) × List String :=
  let arts := merged_artists m
  (arts.foldl add_artist_step artists, arts.map (fun a => a.name))

/-- routers/songs.py add_album_from_metadata: keyed by (album name,
album-artist name); the first occurrence inserts the album data with its
materialized image; afterwards, whenever the current occurrence carries a
materialized image, the stored image is overwritten with it — the source
guard reads albums[key].get of the image slot on the outer wrapper dict,
which never holds that key, so the guard degenerates to the image being
present. Returns the stored album name for the song record. -/
def add_album_from_metadata (m : SongMeta) (albums : List (AlbumKey × BatchAlbum)) :
    List (AlbumKey × BatchAlbum) × Option String :=
  match m.album with
  | none => (albums, none)
  | some alb =>
      let im := make_tempfile_from_apic_frame alb.image
      let key : AlbumKey := (alb.name, alb.artist.map (fun a => a.name))
      let albums1 :=
        match List.lookup key albums with
        | none => albums ++ [(key, ⟨alb.name, alb.artist, im, alb.genre, alb.year⟩)]
        | some _ => albums
      let albums2 :=
        match im with
        | some _ =>
            match List.lookup key albums1 with
            | some entry => aupdate key { entry with image := im } albums1
            | none => albums1
        | none => albums1
      (albums2, some alb.name)

/-- A Song model instance built by add_song_from_metadata (not yet saved). -/
structure SongInst where
  name : String
  year : Int
  genre : Option String
  duration : Nat
  number : Int
  image : Option Nat
  fileId : Nat
deriving Repr, DecidableEq

/-- An element of the batch songs list: the Song instance, the artist names
used for this song, and the album name (or None). -/
structure BatchSong where
  inst : SongInst
  artists : List String
  album : Option String
deriving Repr, DecidableEq

/-- An uploaded file: a content handle, the submitted file name, the result
of the ffprobe audio sniff (utils audio validation), and the codec read
result (tags.read_metadata), which is absent when the container is
unreadable or holds no recognized tag block. -/
structure UpFile where
  fileId : Nat
  fname : String
  audio_ok : Bool
  meta : Option SongMeta
deriving Repr, DecidableEq

/-- The collections built by routers/songs.py extract_metadata. -/
structure ExtractState where
  artists : List (String × BatchArtist)
  albums : List (AlbumKey × BatchAlbum)
  songs : List BatchSong
  untagged : List UpFile
  invalid_files : List String
deriving Repr, DecidableEq

/-- Body of the extract_metadata loop for one uploaded file: files failing
the audio sniff are recorded as invalid; files with no codec metadata are
queued as untagged; otherwise artists, album and the song record are
accumulated. -/
def process_file (st : ExtractState) (f : UpFile) : ExtractState :=
  if f.audio_ok then
    match f.meta with
    | some m =>
        let pa := add_artists_from_metadata m st.artists
        let pb := add_album_from_metadata m st.albums
        let inst : SongInst :=
          { name := m.name, year := m.year, genre := m.genre,
            duration := m.duration, number := m.number,
            image := make_tempfile_from_apic_frame m.image, fileId := f.fileId }
        { st with artists := pa.1, albums := pb.1,
                  songs := st.songs ++ [⟨inst, pa.2, pb.2⟩] }
    | none => { st with untagged := st.untagged ++ [f] }
  else { st with invalid_files := st.invalid_files ++ [f.fname] }

/-- routers/songs.py extract_metadata: left fold of the per-file step over
the uploaded files, starting from empty collections. -/
def extract_metadata (files : List UpFile) : ExtractState :=
  files.foldl process_file ⟨[], [], [], [], []⟩

/-- The files of a batch that end up in the untagged bucket: audio sniff
passed but no codec metadata. -/
def untagged_of (files : List UpFile) : List UpFile :=
  files.filter (fun f => f.audio_ok && f.meta.isNone)

/-- One iteration of the genre-counting loop of upload_files: gcount keys
are the (possibly None) song genres, in first-seen order. -/
def bump_genre (acc : List (Option String × Nat)) (g : Option String) :
    List (Option String × Nat) :=
  match List.lookup g acc with
  | some c => aupdate g (c + 1) acc
  | none => acc ++ [(g, 1)]

/-- The gcount dictionary of upload_files for a list of song genres. -/
def genre_counts (gs : List (Option String)) : List (Option String × Nat) :=
  gs.foldl bump_genre []

/-- The max-selection loop of upload_files: strictly greater counts win, so
the first-seen genre among ties is kept; the initial key is None with count
0. -/
def pick_max_genre (counts : List (Option String × Nat)) : Option String × Nat :=
  counts.foldl (fun p gc => if gc.2 > p.2 then (gc.1, gc.2) else p) (none, 0)

/-- upload_files line 218: the batch songs whose album value is truthy. -/
def songs_with_album (songs : List BatchSong) : List BatchSong :=
  songs.filter (fun s => py_truthy_str s.album)

/-- upload_files lines 219-222: the per-album song list of album_song_map.
The source comprehension filters the songs-with-album list with a
comparison of the album-name string against the song record itself, which
is a comparison between values of different Python types and is False for
every song, so every entry of the map is the empty list. -/
def album_song_map_entry (swa : List BatchSong) : List BatchSong :=
  swa.filter (fun _ => false)

/-- upload_files lines 225-237 for one album entry: count the genres of the
album songs found in album_song_map and overwrite the stored album genre
with the winning key. -/
def infer_album_genre (songs : List BatchSong) (a : BatchAlbum) : BatchAlbum :=
  let asongs := album_song_map_entry (songs_with_album songs)
  let gcount := genre_counts (asongs.map (fun s => s.inst.genre))
  { a with genre := (pick_max_genre gcount).1 }

/-- The genre-inference pass of upload_files over the whole batch albums
dictionary. -/
def set_album_genres (songs : List BatchSong) (albums : List (AlbumKey × BatchAlbum)) :
    List (AlbumKey × BatchAlbum) :=
  albums.map (fun kv => (kv.1, infer_album_genre songs kv.2))

/-- A persisted Artist row (models.Artist): unique name, optional image. -/
structure DbArtist where
  name : String
  image : Option Nat
deriving Repr, DecidableEq

/-- A persisted Album row (models.Album): name, owning-artist name (the FK
target, possibly unset when reconciliation resolved no artist), optional
image, genre and year. -/
structure DbAlbum where
  name : String
  artist : Option String
  image : Option Nat
  genre : Option String
  year : Option Int
deriving Repr, DecidableEq

/-- A persisted Song row (models.Song) together with its relations: the
linked album identity (name, owning-artist name) and the artist names
reachable through the many-to-many join rows. -/
structure DbSong where
  name : String
  fileId : Nat
  duration : Nat
  genre : Option String
  number : Int
  year : Int
  image : Option Nat
  album : Option (String × Option String)
  artistNames : List String
  retag : Bool
deriving Repr, DecidableEq

/-- models.Song.duration carries MinValueValidator(1): the bound model
validation checks; bulk_create does not run it. -/
def duration_validator_ok (s : DbSong) : Prop := 1 ≤ s.duration

instance (s : DbSong) : Decidable (duration_validator_ok s) :=
  inferInstanceAs (Decidable (1 ≤ s.duration))

/-- The persistent store: the three entity tables. -/
structure Store where
  artists : List DbArtist
  albums : List DbAlbum
  songs : List DbSong
deriving Repr, DecidableEq

/-- fetch_or_create_albums_and_artists, artist half: the batch artist keys
missing from the fetched name list become new Artist rows, in batch order. -/
def artists_to_create (st : Store) (artists : List (String × BatchArtist)) :
    List DbArtist :=
  let artist_keys := artists.map (fun kv => kv.1)
  let db_artists0 := st.artists.filter (fun a => artist_keys.contains a.name)
  let db_artists_names := db_artists0.map (fun a => a.name)
  (artists.filter (fun kv => !(db_artists_names.contains kv.1))).map
    (fun kv => (⟨kv.2.name, kv.2.image⟩ : DbArtist))

/-- fetch_or_create_albums_and_artists, album half: existing albums are
fetched by name only; a batch album whose name is absent from the fetched
name list becomes a new Album row, its artist resolved through the artist
map when the batch album data carries an artist. -/
def albums_to_create (st : Store) (albums : List (AlbumKey × BatchAlbum))
    (artist_map : List (String × DbArtist)) : List DbAlbum :=
  let album_name_keys := albums.map (fun kv => kv.1.1)
  let db_albums0 := st.albums.filter (fun a => album_name_keys.contains a.name)
  let db_albums_names := db_albums0.map (fun a => a.name)
  (albums.filter (fun kv => !(db_albums_names.contains kv.1.1))).map
    (fun kv =>
      let data := kv.2
      let artist :=
        if data.artist.isSome then
          (kv.1.2.bind (fun an => List.lookup an artist_map)).map (fun a => a.name)
        else none
      (⟨data.name, artist, data.image, data.genre, data.year⟩ : DbAlbum))

/-- The artist lookup map built inside fetch_or_create_albums_and_artists:
fetched artists followed by the freshly created ones, keyed by name. -/
def batch_artist_map (st : Store) (artists : List (String × BatchArtist)) :
    List (String × DbArtist) :=
  ((st.artists.filter
      (fun a => (artists.map (fun kv => kv.1)).contains a.name)) ++
    artists_to_create st artists).map (fun a => (a.name, a))

/-- routers/songs.py fetch_or_create_albums_and_artists: fetch existing
artists and albums matching the batch keys by name, bulk-create the missing
ones, and return the combined lists together with the grown store. -/
def fetch_or_create_albums_and_artists (st : Store)
    (albums : List (AlbumKey × BatchAlbum)) (artists : List (String × BatchArtist)) :
    Store × List DbArtist × List DbAlbum :=
  let artist_keys := artists.map (fun kv => kv.1)
  let db_artists0 := st.artists.filter (fun a => artist_keys.contains a.name)
  let created_artists := artists_to_create st artists
  let db_artists := db_artists0 ++ created_artists
  let album_name_keys := albums.map (fun kv => kv.1.1)
  let db_albums0 := st.albums.filter (fun a => album_name_keys.contains a.name)
  let created_albums := albums_to_create st albums (batch_artist_map st artists)
  let db_albums := db_albums0 ++ created_albums
  ({ st with artists := st.artists ++ created_artists,
             albums := st.albums ++ created_albums },
   db_artists, db_albums)

/-- Membership of a string in a list of strings, used to compare Python
frozensets of artist names: two frozensets are equal exactly when each
contains every element of the other. -/
def same_name_set (a b : List String) : Bool :=
  a.all (fun x => b.contains x) && b.all (fun x => a.contains x)

/-- A Python frozenset of names, modelled as the keep-first deduplicated
list (the source iterates the frozenset in an unspecified order; the model
fixes first-listed order). -/
def dedup_keep_first (seen : List String) : List String → List String
  | [] => []
  | x :: rest =>
      if seen.contains x then dedup_keep_first seen rest
      else x :: dedup_keep_first (x :: seen) rest

/-- create_songs album attachment: walk the song artist set and return the
first album_map hit for (album name, artist name). -/
def find_album_for (album_map : List ((String × Option String) × DbAlbum))
    (an : String) : List String → Option DbAlbum
  | [] => none
  | sa :: rest =>
      match List.lookup (an, some sa) album_map with
      | some alb => some alb
      | none => find_album_for album_map an rest

/-- routers/songs.py create_songs: fetch persisted songs matching the batch
song names, skip every batch song whose (name, album name or None, artist
name set) key is already persisted, attach an album instance through the
first matching (album name, artist) pair, resolve artist instances, and
bulk-create the surviving rows with their join rows (retag keeps its
default False: bulk_create fires no save signals). -/
def create_songs (st : Store) (songs : List BatchSong)
    (db_artists : List DbArtist) (db_albums : List DbAlbum) : Store :=
  let song_names := songs.map (fun s => s.inst.name)
  let db_songs := st.songs.filter (fun s => song_names.contains s.name)
  let artist_map := db_artists.map (fun a => (a.name, a))
  let album_map := db_albums.map (fun a => ((a.name, a.artist), a))
  let step := fun (acc : List DbSong) (song : BatchSong) =>
    let inst := song.inst
    let sartists := dedup_keep_first [] song.artists
    let skip := db_songs.any (fun s =>
      s.name == inst.name && ((s.album.map (fun p => p.1)) == song.album) &&
        same_name_set s.artistNames song.artists)
    if skip then acc
    else
      let albumRef : Option DbAlbum :=
        if py_truthy_str song.album then
          match song.album with
          | some an => find_album_for album_map an sartists
          | none => none
        else none
      let arts := sartists.filterMap (fun sa => List.lookup sa artist_map)
      acc ++ [{ name := inst.name, fileId := inst.fileId, duration := inst.duration,
                genre := inst.genre, number := inst.number, year := inst.year,
                image := inst.image,
                album := albumRef.map (fun a => (a.name, a.artist)),
                artistNames := arts.map (fun a => a.name), retag := false }]
  { st with songs := st.songs ++ songs.foldl step [] }

/-- The batch statistics returned by the upload endpoint. -/
structure UploadStats where
  total_count : Nat
  invalid_count : Nat
  invalid_files : List String
deriving Repr, DecidableEq

/-- upload_files lines 244-252: the stub Song row materialized for a
completely untagged file: name Unnamed, duration 0, the file attached, no
relations, every other field at its model default. -/
def mk_untagged_song (f : UpFile) : DbSong :=
  { name := "Unnamed", fileId := f.fileId, duration := 0, genre := none,
    number := 1, year := 1, image := none, album := none, artistNames := [],
    retag := false }

/-- routers/songs.py upload_files: extract metadata, run the album genre
inference pass, reconcile artists and albums, create the surviving songs,
bulk-create the untagged stubs, and return the batch statistics. -/
def upload_files (st : Store) (files : List UpFile) : Store × UploadStats :=
  let info := extract_metadata files
  let albums := set_album_genres info.songs info.albums
  let r := fetch_or_create_albums_and_artists st albums info.artists
  let st2 := create_songs r.1 info.songs r.2.1 r.2.2
  let st3 := { st2 with songs := st2.songs ++ info.untagged.map mk_untagged_song }
  (st3, { total_count := files.length,
          invalid_count := info.invalid_files.length,
          invalid_files := info.invalid_files })

/-- A Song row as seen by the retag signal machinery: primary key, album
foreign key, linked artist ids, and the retag flag. -/
structure SongRow where
  id : Nat
  albumId : Option Nat
  artistIds : List Nat
  retag : Bool
deriving Repr, DecidableEq

/-- signals.before_song_save (pre_save receiver for Song): when the saved
instance carries a primary key the retag flag is forced on; an instance
without a primary key keeps its flag. -/
def before_song_save (pk : Option Nat) (retag : Bool) : Bool :=
  match pk with
  | some _ => true
  | none => retag

/-- Saving a brand-new Song (no primary key yet; Django assigns it on
insert): the pre-save hook sees no primary key, so the row is inserted with
the flag it carried — the model default False. -/
def save_new_song (db : List SongRow) (newId : Nat) (albumId : Option Nat)
    (artistIds : List Nat) : List SongRow :=
  db ++ [{ id := newId, albumId := albumId, artistIds := artistIds,
           retag := before_song_save none false }]

/-- Saving an existing Song row in place (any field): the pre-save hook
sees the primary key and forces retag on before the row is written. The
post-save receiver ignores Song instances. -/
def save_existing_song (db : List SongRow) (s : SongRow) : List SongRow :=
  db.map (fun r =>
    if r.id == s.id then { s with retag := before_song_save (some s.id) s.retag }
    else r)

/-- signals.update_retag_field (post_save receiver), Album branch: when an
existing Album row was updated (created is False), every Song whose
album_id matches is bulk-set to retag True. -/
def update_retag_field_album (created : Bool) (albumId : Nat)
    (db : List SongRow) : List SongRow :=
  if created then db
  else db.map (fun r =>
    if r.albumId == some albumId then { r with retag := true } else r)

/-- signals.update_retag_field (post_save receiver), Artist branch: when an
existing Artist row was updated, every Song linked to it through the
many-to-many relation is bulk-set to retag True. -/
def update_retag_field_artist (created : Bool) (artistId : Nat)
    (db : List SongRow) : List SongRow :=
  if created then db
  else db.map (fun r =>
    if r.artistIds.contains artistId then { r with retag := true } else r)

/-- The transient presentation fields of a Song that the field inheritance
resolver may fill. -/
structure ViewSong where
  image : Option Nat
  genre : Option String
  year : Option Int
deriving Repr, DecidableEq

/-- The album fields the resolver may inherit from. -/
structure ViewAlbum where
  image : Option Nat
  genre : Option String
  year : Option Int
deriving Repr, DecidableEq

/-- utils.fill_song_fields: when an album is present, each of image, genre
and year is kept when the song value is truthy and otherwise replaced by
the album value; with no album the song is left untouched. -/
def fill_song_fields (song : ViewSong) (album : Option ViewAlbum) : ViewSong :=
  match album with
  | none => song
  | some alb =>
      { image := if py_truthy_file song.image then song.image else alb.image,
        genre := if py_truthy_str song.genre then song.genre else alb.genre,
        year := if py_truthy_int song.year then song.year else alb.year }

/-- The per-field resolution rule as the spec words it: the song value when
set, else the album value ("set" being Python truthiness of the field). -/
def resolve_field {α : Type} (set_p : Option α → Bool) (songVal albVal : Option α) :
    Option α :=
  if set_p songVal then songVal else albVal

/-- The three codec families of tags.py. -/
inductive Codec
  | id3
  | mp4
  | vcomment
deriving Repr, DecidableEq

/-- tags._extension_map: file extension to codec. -/
def extension_map : List (String × Codec) :=
  [(".mp3", .id3), (".mp4", .mp4), (".ogg", .vcomment), (".opus", .vcomment),
   (".flac", .vcomment)]

/-- The attribute names actually defined on os.path that the write-back
dispatch could mean: the path-splitting helper is named splitext. -/
def os_path_attrs : List String := ["splitext", "basename", "join"]

/-- The container extension of a song file. -/
def DbSong.ext (_s : DbSong) : String := ".mp3"

/-- tags.write_metadata: the source looks up the attribute splittext on
os.path; no such attribute exists (the library function is splitext), so
every call raises AttributeError before any codec is selected or any tag
is written. The codec-dispatch branch is modelled after the source but is
unreachable. -/
def write_metadata (song : DbSong) : Except String Unit :=
  if os_path_attrs.contains "splittext" then
    match List.lookup song.ext extension_map with
    | some _ => Except.ok ()
    | none => Except.ok ()
  else Except.error "AttributeError: os.path has no attribute splittext"

/-- The write-back pass of routers/songs.py download_songs: for each
fetched song whose retag flag is set, run write_metadata; an exception
propagates out of the endpoint before any file is streamed. -/
def download_retag_pass : List DbSong → Except String Unit
  | [] => Except.ok ()
  | s :: rest =>
      if s.retag then
        match write_metadata s with
        | Except.ok _ => download_retag_pass rest
        | Except.error e => Except.error e
      else download_retag_pass rest

/-- Embedded picture roles (mutagen PictureType). -/
inductive PicType
  | coverFront
  | media
  | artistPic
  | other
deriving Repr, DecidableEq

/-- An embedded picture frame as the codec readers walk it: role,
description, payload, and whether a temp file can be made from it (mime
extension guessable and payload a valid image). -/
structure ApicFrame where
  ptype : PicType
  desc : String
  payload : Nat
  valid : Bool
deriving Repr, DecidableEq

/-- tags ID3Editor _apic_frame_to_temp_file and VCommentEditor
_picture_to_temp_file: the frame payload as a validated temporary image
file, or nothing when validation fails. -/
def apic_to_temp (f : ApicFrame) : Option Nat :=
  if f.valid then some f.payload else none

/-- The picture-attachment state of one codec read: the album image, the
standalone song image, and the artists dictionary image slots keyed by
artist name. -/
structure ReadPics where
  album_image : Option Nat
  song_image : Option Nat
  artist_images : List (String × Option Nat)
deriving Repr, DecidableEq

/-- tags.py ID3Editor.read, picture loop (lines 174-182), one frame: a
MEDIA or COVER_FRONT frame becomes the album image when the album has an
artist, else the song image (overwriting, possibly with a failed
validation); an ARTIST frame is attached by looking its description up in
the artists dictionary — an exact key lookup — and overwrites that
artist's image slot with the validation result. -/
def id3_pic_step (album_has_artist : Bool) (st : ReadPics) (f : ApicFrame) :
    ReadPics :=
  let st1 :=
    if f.ptype == PicType.media || f.ptype == PicType.coverFront then
      if album_has_artist then { st with album_image := apic_to_temp f }
      else { st with song_image := apic_to_temp f }
    else st
  if f.ptype == PicType.artistPic then
    match List.lookup f.desc st1.artist_images with
    | some _ => { st1 with artist_images := aupdate f.desc (apic_to_temp f) st1.artist_images }
    | none => st1
  else st1

/-- The whole ID3 picture pass over the frames of one file, starting from
an artists dictionary with empty image slots. -/
def id3_pic_pass (album_has_artist : Bool) (names : List String)
    (frames : List ApicFrame) : ReadPics :=
  frames.foldl (id3_pic_step album_has_artist)
    ⟨none, none, names.map (fun a => (a, none))⟩

/-- tags.py VCommentEditor.read, picture loop (lines 472-485), one frame:
a COVER_FRONT or MEDIA frame fills the album image when the album has an
artist and its image is still empty, else fills a still-empty song image —
in both cases only when validation succeeds; an ARTIST frame is attached
by exact lookup of its description in the artist map and overwrites that
slot only when validation succeeds. -/
def vc_pic_step (album_has_artist : Bool) (st : ReadPics) (f : ApicFrame) :
    ReadPics :=
  if f.ptype == PicType.coverFront || f.ptype == PicType.media then
    if album_has_artist && st.album_image.isNone then
      match apic_to_temp f with
      | some p => { st with album_image := some p }
      | none => st
    else if st.song_image.isNone then
      match apic_to_temp f with
      | some p => { st with song_image := some p }
      | none => st
    else st
  else if f.ptype == PicType.artistPic then
    match List.lookup f.desc st.artist_images with
    | some _ =>
        match apic_to_temp f with
        | some p => { st with artist_images := aupdate f.desc (some p) st.artist_images }
        | none => st
    | none => st
  else st

/-- The whole Vorbis-comment picture pass over the pictures of one file. -/
def vc_pic_pass (album_has_artist : Bool) (names : List String)
    (frames : List ApicFrame) : ReadPics :=
  frames.foldl (vc_pic_step album_has_artist)
    ⟨none, none, names.map (fun a => (a, none))⟩

/-- Whitespace for the trimming of the claimed comparison. -/
def is_space_char (c : Char) : Bool :=
  c == ' ' || c == '\t' || c == '\n' || c == '\r'

/-- Leading and trailing whitespace removed from a character list. -/
def trim_chars (l : List Char) : List Char :=
  ((l.dropWhile is_space_char).reverse.dropWhile is_space_char).reverse

/-- The comparison the claim describes: case-insensitive, trimmed equality
of a picture description with an artist name. -/
def ci_trim_eq (a b : String) : Bool :=
  (trim_chars a.data).map Char.toLower == (trim_chars b.data).map Char.toLower

/-- The image the ID3 picture pass leaves on an artist: the validation
result of the last ARTIST frame whose description equals the artist name
byte for byte, absent when there is no such frame. -/
def id3_final_artist_image (name : String) (frames : List ApicFrame) : Option Nat :=
  frames.foldl
    (fun acc f =>
      if f.ptype == PicType.artistPic && f.desc == name then apic_to_temp f
      else acc)
    none

/-- The image the Vorbis-comment picture pass leaves on an artist: the
payload of the last ARTIST frame whose description equals the artist name
byte for byte and whose payload validates, absent when there is none. -/
def vc_final_artist_image (name : String) (frames : List ApicFrame) : Option Nat :=
  frames.foldl
    (fun acc f =>
      if f.ptype == PicType.artistPic && f.desc == name &&
          (apic_to_temp f).isSome then apic_to_temp f
      else acc)
    none

/-- The spec scenario for album genre inference: four files sharing one
album, three tagged Rap and one tagged Hip-Hop (the tag-declared album
genre is Hip-Hop). -/
def genre_scenario_files : List UpFile :=
  let em : ArtistMeta := { name := "Eminem", image := none }
  let alb : AlbumMeta :=
    { name := "TheMarshall", artist := some em, image := none,
      genre := some "Hip-Hop", year := some 2012 }
  [ { fileId := 1, fname := "a.mp3", audio_ok := true,
      meta := some { name := "s1", year := 2012, genre := some "Rap",
                     duration := 100, number := 1, image := none,
                     artists := [em], album := some alb } },
    { fileId := 2, fname := "b.mp3", audio_ok := true,
      meta := some { name := "s2", year := 2012, genre := some "Rap",
                     duration := 100, number := 2, image := none,
                     artists := [em], album := some alb } },
    { fileId := 3, fname := "c.mp3", audio_ok := true,
      meta := some { name := "s3", year := 2012, genre := some "Rap",
                     duration := 100, number := 3, image := none,
                     artists := [em], album := some alb } },
    { fileId := 4, fname := "d.mp3", audio_ok := true,
      meta := some { name := "s4", year := 2012, genre := some "Hip-Hop",
                     duration := 100, number := 4, image := none,
                     artists := [em], album := some alb } } ]

/-- An uploaded file tagged with one artist, an album whose album artist is
that same artist (the ID3 fallback when no explicit album-artist frame is
present), and arbitrary remaining metadata. -/
def single_artist_file (n : String) (y : Int) (g : Option String) (d : Nat)
    (num : Int) (img aimg aimg2 albimg : Option Apic) (albg : Option String)
    (alby : Option Int) (an aname : String) (fid : Nat) (fn : String) : UpFile :=
  { fileId := fid, fname := fn, audio_ok := true,
    meta := some { name := n, year := y, genre := g, duration := d,
                   number := num, image := img, artists := [⟨aname, aimg⟩],
                   album := some { name := an, artist := some ⟨aname, aimg2⟩,
                                   image := albimg, genre := albg,
                                   year := alby } } }

lemma lookup_aupdate_self {α β : Type} [BEq α] [LawfulBEq α] (k : α) (v : β)
    (l : List (α × β)) (h : (List.lookup k l).isSome) :
    List.lookup k (aupdate k v l) = some v := by
  induction l with
  | nil => simp [List.lookup] at h
  | cons p rest ih =>
      obtain ⟨k0, w⟩ := p
      by_cases hk : k0 = k
      · subst hk
        simp [aupdate, List.lookup]
      · have hb : (k0 == k) = false := by simp [hk]
        have hb2 : (k == k0) = false := by
          have : ¬k = k0 := fun hh => hk hh.symm
          simp [this]
        simp only [aupdate, hb, if_false, List.lookup, hb2]
        apply ih
        simpa [List.lookup, hb2] using h

lemma lookup_aupdate_ne {α β : Type} [BEq α] [LawfulBEq α] (k q : α) (v : β)
    (l : List (α × β)) (h : q ≠ k) :
    List.lookup q (aupdate k v l) = List.lookup q l := by
  induction l with
  | nil => simp [aupdate]
  | cons p rest ih =>
      obtain ⟨k0, w⟩ := p
      by_cases hk : k0 = k
      · subst hk
        have hb : (q == k0) = false := by simp [h]
        simp [aupdate, List.lookup, hb]
      · have hb : (k0 == k) = false := by simp [hk]
        by_cases hq : q = k0
        · subst hq
          simp [aupdate, hb, List.lookup]
        · have hb2 : (q == k0) = false := by simp [hq]
          simp [aupdate, hb, List.lookup, hb2, ih]

/-- C7: for every Song and its possibly-null Album, the field inheritance
resolver sets the effective image, genre and year to the song value when
set (Python truthiness: a missing file, empty genre string or zero year
counts as unset), else to the album value; with no album the song values
stand unchanged, so the resolver never invents data. -/
theorem c7_field_inheritance (song : ViewSong) (alb : ViewAlbum) :
    fill_song_fields song (some alb) =
      { image := resolve_field py_truthy_file song.image alb.image,
        genre := resolve_field py_truthy_str song.genre alb.genre,
        year := resolve_field py_truthy_int song.year alb.year } ∧
    fill_song_fields song none = song := by
  exact ⟨rfl, rfl⟩

/-- C3: retag is False immediately after a Song row is created (the
pre-save hook does not fire without a primary key, so the model default is
kept), and True immediately after an in-place update of the Song, after an
update of its Album, or after an update of any linked Artist; the
song-update transition fires exactly when a primary key is present. -/
theorem c3_retag_policy (db : List SongRow) (n aid rid : Nat) (a : Option Nat)
    (l : List Nat) (s r : SongRow) :
    (save_new_song db n a l =
      db ++ [{ id := n, albumId := a, artistIds := l, retag := false }]) ∧
    (r ∈ save_existing_song db s → r.id = s.id → r.retag = true) ∧
    (r ∈ update_retag_field_album false aid db → r.albumId = some aid →
      r.retag = true) ∧
    (r ∈ update_retag_field_artist false rid db → r.artistIds.contains rid →
      r.retag = true) ∧
    before_song_save none s.retag = s.retag ∧
    before_song_save (some n) s.retag = true := by
  refine ⟨rfl, ?_, ?_, ?_, rfl, rfl⟩
  · intro hmem hid
    rw [save_existing_song, List.mem_map] at hmem
    obtain ⟨r0, _, hr⟩ := hmem
    by_cases h0 : r0.id = s.id
    · have : (r0.id == s.id) = true := by simp [h0]
      rw [this] at hr
      simp only [if_true] at hr
      rw [← hr]
      rfl
    · have : (r0.id == s.id) = false := by simp [h0]
      rw [this] at hr
      simp only [Bool.false_eq_true, if_false] at hr
      rw [← hr] at hid
      exact absurd hid h0
  · intro hmem halb
    rw [update_retag_field_album, if_neg (by simp), List.mem_map] at hmem
    obtain ⟨r0, _, hr⟩ := hmem
    by_cases h0 : r0.albumId = some aid
    · have : (r0.albumId == some aid) = true := by simp [h0]
      rw [this] at hr
      simp only [if_true] at hr
      rw [← hr]
    · have : (r0.albumId == some aid) = false := by simp [h0]
      rw [this] at hr
      simp only [Bool.false_eq_true, if_false] at hr
      rw [← hr] at halb
      exact absurd halb h0
  · intro hmem hart
    rw [update_retag_field_artist, if_neg (by simp), List.mem_map] at hmem
    obtain ⟨r0, _, hr⟩ := hmem
    by_cases h0 : r0.artistIds.contains rid = true
    · rw [if_pos h0] at hr
      rw [← hr]
    · rw [if_neg h0] at hr
      rw [← hr] at hart
      exact absurd hart h0

/-- Witness for C3 at concrete rows: a fresh row is inserted with retag
False, and in-place song, album and artist updates flip the matching rows
to True. -/
theorem c3_retag_policy_witness :
    (save_new_song [] 1 (some 5) [3] =
      [{ id := 1, albumId := some 5, artistIds := [3], retag := false }]) ∧
    ({ id := 2, albumId := some 7, artistIds := [4], retag := true } : SongRow).retag
      = true := by
  have h := c3_retag_policy
    [{ id := 2, albumId := some 5, artistIds := [3], retag := false }]
    1 5 3 (some 5) [3]
    { id := 2, albumId := some 7, artistIds := [4], retag := false }
    { id := 2, albumId := some 7, artistIds := [4], retag := true }
  refine ⟨(c3_retag_policy [] 1 5 3 (some 5) [3]
    { id := 9, albumId := none, artistIds := [], retag := false }
    { id := 9, albumId := none, artistIds := [], retag := false }).1, ?_⟩
  exact h.2.1 (by decide) rfl

lemma write_metadata_always_raises (s : DbSong) :
    write_metadata s =
      Except.error "AttributeError: os.path has no attribute splittext" := by
  rfl

/-- C5: the download endpoint runs the write-back pass over every fetched
song whose retag flag is set before streaming — but tags.write_metadata
looks up the nonexistent attribute os.path.splittext, so as soon as one
requested song has retag set the pass raises AttributeError instead of
resynchronizing the tags, and nothing is streamed. -/
theorem c5_writeback_raises (songs : List DbSong) (s : DbSong)
    (hmem : s ∈ songs) (hretag : s.retag = true) :
    download_retag_pass songs =
      Except.error "AttributeError: os.path has no attribute splittext" := by
  induction songs with
  | nil => cases hmem
  | cons h0 rest ih =>
      rw [download_retag_pass]
      by_cases hh : h0.retag = true
      · rw [if_pos hh, write_metadata_always_raises]
      · rw [if_neg hh]
        rcases List.mem_cons.mp hmem with he | ht
        · rw [he] at hretag
          exact absurd hretag hh
        · exact ih ht

/-- Witness for C5: a single requested song with retag set makes the
write-back pass raise AttributeError. -/
theorem c5_writeback_raises_witness :
    download_retag_pass
      [{ name := "s", fileId := 1, duration := 10, genre := none, number := 1,
         year := 1, image := none, album := none, artistNames := [],
         retag := true }] =
      Except.error "AttributeError: os.path has no attribute splittext" := by
  exact c5_writeback_raises _ _ (List.mem_singleton.mpr rfl) rfl

/-- C1: the album genre inference is broken at the failing input of the
spec scenario (three constituent songs tagged Rap, one Hip-Hop). The
album_song_map comprehension filters with a comparison of the album-name
string against the song record itself, so every album gets the empty song
list and its genre is set to None — while the mode of the genres of the
songs actually assigned to the album in the batch (computed with the same
counting and first-seen tie-break loops the source uses) is Rap. The
repository test suite asserts the Rap outcome, so the code contradicts its
own tests. -/
theorem c1_album_genre_bug_eval :
    ((upload_files ⟨[], [], []⟩ genre_scenario_files).1).albums =
      [{ name := "TheMarshall", artist := some "Eminem", image := none,
         genre := none, year := some 2012 }] ∧
    (pick_max_genre (genre_counts
      (((extract_metadata genre_scenario_files).songs.filter
          (fun s => s.album == some "TheMarshall")).map
        (fun s => s.inst.genre)))).1 = some "Rap" := by
  exact ⟨by decide, by decide⟩

/-- C6 counterexample: a batch holding one valid but completely untagged
file leaves a persisted Song row (the Unnamed stub) with duration 0, so
not every persisted Song row satisfies the declared duration lower bound
of 1. -/
theorem c6_counterexample :
    ¬ (∀ s ∈ ((upload_files ⟨[], [], []⟩
          [{ fileId := 9, fname := "junk.mp3", audio_ok := true, meta := none }]).1).songs,
        duration_validator_ok s) := by
  decide

/-- C8 counterexample: an ARTIST picture whose description matches the
artist name under the trimmed case-insensitive comparison the claim
describes, but not byte-for-byte, is not attached: the ID3 reader looks
the raw description up in the artists dictionary, and the slot stays
empty. -/
theorem c8_counterexample :
    ci_trim_eq "eminem" "Eminem" = true ∧
    List.lookup "Eminem"
      ((id3_pic_pass true ["Eminem"]
        [{ ptype := PicType.artistPic, desc := "eminem", payload := 7,
           valid := true }]).artist_images) = some none ∧
    List.lookup "Eminem"
      ((vc_pic_pass true ["Eminem"]
        [{ ptype := PicType.artistPic, desc := "eminem", payload := 7,
           valid := true }]).artist_images) = some none := by
  refine ⟨by decide, by decide, by decide⟩

/-- C9 counterexample: two files of one batch carry the same album key
(name A, artist X), the first with embedded image 1 and the second with
embedded image 2. After the first file the stored album image is 1; after
the second it has been replaced by 2 (while genre and year keep the
first-occurrence values), so an image already present from the first
occurrence is not preserved. -/
theorem c9_counterexample :
    (List.lookup ("A", some "X")
      ((add_album_from_metadata
        { name := "s1", year := 1, genre := none, duration := 10, number := 1,
          image := none, artists := [],
          album := some { name := "A", artist := some ⟨"X", none⟩,
                          image := some ⟨1, true, true⟩, genre := some "G1",
                          year := some 1991 } } []).1) =
      some { name := "A", artist := some ⟨"X", none⟩, image := some 1,
             genre := some "G1", year := some 1991 }) ∧
    (List.lookup ("A", some "X")
      ((add_album_from_metadata
        { name := "s2", year := 1, genre := none, duration := 10, number := 1,
          image := none, artists := [],
          album := some { name := "A", artist := some ⟨"X", none⟩,
                          image := some ⟨2, true, true⟩, genre := some "G2",
                          year := some 1992 } }
        ((add_album_from_metadata
          { name := "s1", year := 1, genre := none, duration := 10, number := 1,
            image := none, artists := [],
            album := some { name := "A", artist := some ⟨"X", none⟩,
                            image := some ⟨1, true, true⟩, genre := some "G1",
                            year := some 1991 } } []).1)).1) =
      some { name := "A", artist := some ⟨"X", none⟩, image := some 2,
             genre := some "G1", year := some 1991 }) := by
  exact ⟨by decide, by decide⟩

lemma process_file_untagged_set (st : ExtractState) (w : List UpFile) (f : UpFile) :
    process_file { st with untagged := w } f =
      { process_file st f with
        untagged := w ++ (if f.audio_ok && f.meta.isNone then [f] else []) } := by
  rcases hk : f.audio_ok with _ | _ <;> rcases hm : f.meta with _ | m <;>
    simp [process_file, hk, hm]

lemma foldl_process_untagged (l : List UpFile) (st : ExtractState) (w : List UpFile) :
    l.foldl process_file { st with untagged := w } =
      { l.foldl process_file st with untagged := w ++ untagged_of l } := by
  induction l generalizing st w with
  | nil => simp [untagged_of]
  | cons f l ih =>
      simp only [List.foldl_cons]
      rw [process_file_untagged_set, ih]
      have : untagged_of (f :: l) =
          (if f.audio_ok && f.meta.isNone then [f] else []) ++ untagged_of l := by
        rcases hk : f.audio_ok with _ | _ <;> rcases hm : f.meta with _ | m <;>
          simp [untagged_of, List.filter_cons, hk, hm]
      rw [this, List.append_assoc]

lemma extract_metadata_untagged (files : List UpFile) :
    (extract_metadata files).untagged = untagged_of files := by
  have h := foldl_process_untagged files ⟨[], [], [], [], []⟩ []
  have h2 := congrArg ExtractState.untagged h
  simpa [extract_metadata] using h2

/-- C4: a file of a batch for which the codec read reports no metadata
(corrupt or unreadable container, unrecognized tag block — read_metadata
returns None rather than raising) does not perturb the processing of its
sibling files: the artists, albums, songs and invalid-file collections
equal those of the batch with that file removed, and the file itself only
lands in the untagged bucket, in order, between the untagged files of the
surrounding sublists. -/
theorem c4_per_file_isolation (l1 l2 : List UpFile) (bad : UpFile)
    (hok : bad.audio_ok = true) (hm : bad.meta = none) :
    ((extract_metadata (l1 ++ bad :: l2)).artists =
        (extract_metadata (l1 ++ l2)).artists) ∧
    ((extract_metadata (l1 ++ bad :: l2)).albums =
        (extract_metadata (l1 ++ l2)).albums) ∧
    ((extract_metadata (l1 ++ bad :: l2)).songs =
        (extract_metadata (l1 ++ l2)).songs) ∧
    ((extract_metadata (l1 ++ bad :: l2)).invalid_files =
        (extract_metadata (l1 ++ l2)).invalid_files) ∧
    ((extract_metadata (l1 ++ bad :: l2)).untagged =
        (extract_metadata l1).untagged ++ bad :: untagged_of l2) ∧
    ((extract_metadata (l1 ++ l2)).untagged =
        (extract_metadata l1).untagged ++ untagged_of l2) := by
  have hfull : extract_metadata (l1 ++ bad :: l2) =
      { l2.foldl process_file (extract_metadata l1) with
        untagged := (extract_metadata l1).untagged ++ bad :: untagged_of l2 } := by
    rw [extract_metadata, List.foldl_append, List.foldl_cons]
    have hbad : process_file (extract_metadata l1) bad =
        { extract_metadata l1 with
          untagged := (extract_metadata l1).untagged ++ [bad] } := by
      simp [process_file, hok, hm]
    rw [← extract_metadata, hbad]
    have := foldl_process_untagged l2 (extract_metadata l1)
      ((extract_metadata l1).untagged ++ [bad])
    rw [this]
    simp
  have hrest : extract_metadata (l1 ++ l2) =
      { l2.foldl process_file (extract_metadata l1) with
        untagged := (extract_metadata l1).untagged ++ untagged_of l2 } := by
    rw [extract_metadata, List.foldl_append, ← extract_metadata]
    have := foldl_process_untagged l2 (extract_metadata l1)
      ((extract_metadata l1).untagged)
    simp at this
    rw [this]
  rw [hfull, hrest]
  exact ⟨rfl, rfl, rfl, rfl, rfl, rfl⟩

/-- Witness for C4 at a concrete batch: one tagged file, then an untagged
file, then an invalid file; the untagged file is isolated. -/
theorem c4_per_file_isolation_witness :
    ((extract_metadata
        ([{ fileId := 1, fname := "a.mp3", audio_ok := true,
            meta := some { name := "s1", year := 1, genre := none,
                           duration := 10, number := 1, image := none,
                           artists := [⟨"E", none⟩], album := none } }] ++
          { fileId := 2, fname := "bad.mp3", audio_ok := true, meta := none } ::
          [{ fileId := 3, fname := "junk.bin", audio_ok := false, meta := none }])).songs =
      (extract_metadata
        ([{ fileId := 1, fname := "a.mp3", audio_ok := true,
            meta := some { name := "s1", year := 1, genre := none,
                           duration := 10, number := 1, image := none,
                           artists := [⟨"E", none⟩], album := none } }] ++
          [{ fileId := 3, fname := "junk.bin", audio_ok := false, meta := none }])).songs) := by
  exact (c4_per_file_isolation _ _ _ rfl rfl).2.2.1

/-- C6 amended: the stub Song rows materialized for completely untagged
uploads are persisted with name Unnamed and duration 0 — bulk_create does
not run the declared MinValueValidator(1) — so the duration lower bound of
1 does not hold for them (it is only enforced on validated create paths). -/
theorem c6_stub_duration_zero (st : Store) (files : List UpFile) (f : UpFile)
    (hmem : f ∈ files) (hok : f.audio_ok = true) (hm : f.meta = none) :
    mk_untagged_song f ∈ ((upload_files st files).1).songs ∧
    (mk_untagged_song f).duration = 0 ∧
    (mk_untagged_song f).name = "Unnamed" ∧
    ¬ duration_validator_ok (mk_untagged_song f) := by
  refine ⟨?_, rfl, rfl, by simp [duration_validator_ok, mk_untagged_song]⟩
  have hsongs : ((upload_files st files).1).songs =
      (create_songs
        (fetch_or_create_albums_and_artists st
          (set_album_genres (extract_metadata files).songs
            (extract_metadata files).albums)
          (extract_metadata files).artists).1
        (extract_metadata files).songs
        (fetch_or_create_albums_and_artists st
          (set_album_genres (extract_metadata files).songs
            (extract_metadata files).albums)
          (extract_metadata files).artists).2.1
        (fetch_or_create_albums_and_artists st
          (set_album_genres (extract_metadata files).songs
            (extract_metadata files).albums)
          (extract_metadata files).artists).2.2).songs ++
      ((extract_metadata files).untagged).map mk_untagged_song := rfl
  rw [hsongs]
  apply List.mem_append_right
  apply List.mem_map_of_mem
  rw [extract_metadata_untagged]
  exact List.mem_filter.mpr ⟨hmem, by simp [hok, hm]⟩

/-- Witness for C6 amended: the stub created for one concrete untagged
file is in the store with duration 0. -/
theorem c6_stub_duration_zero_witness :
    mk_untagged_song { fileId := 9, fname := "junk.mp3", audio_ok := true, meta := none } ∈
      ((upload_files ⟨[], [], []⟩
        [{ fileId := 9, fname := "junk.mp3", audio_ok := true, meta := none }]).1).songs := by
  exact (c6_stub_duration_zero ⟨[], [], []⟩ _ _ (List.mem_singleton.mpr rfl) rfl rfl).1

lemma init_images_lookup (names : List String) (name : String) (h : name ∈ names) :
    List.lookup name (names.map (fun a => (a, (none : Option Nat)))) = some none := by
  induction names with
  | nil => cases h
  | cons a rest ih =>
      by_cases ha : name = a
      · subst ha
        simp [List.lookup]
      · have hb : (name == a) = false := by simp [ha]
        rcases List.mem_cons.mp h with he | ht
        · exact absurd he ha
        · simp [List.lookup, hb, ih ht]

lemma id3_step_images (flag : Bool) (st : ReadPics) (f : ApicFrame) :
    (id3_pic_step flag st f).artist_images =
      (if f.ptype == PicType.artistPic then
        match List.lookup f.desc st.artist_images with
        | some _ => aupdate f.desc (apic_to_temp f) st.artist_images
        | none => st.artist_images
      else st.artist_images) := by
  unfold id3_pic_step
  rcases hpt : f.ptype <;> simp [hpt] <;> split <;> rfl

lemma vc_step_images (flag : Bool) (st : ReadPics) (f : ApicFrame) :
    (vc_pic_step flag st f).artist_images =
      (if f.ptype == PicType.artistPic then
        match List.lookup f.desc st.artist_images with
        | some _ =>
            match apic_to_temp f with
            | some p => aupdate f.desc (some p) st.artist_images
            | none => st.artist_images
        | none => st.artist_images
      else st.artist_images) := by
  unfold vc_pic_step
  rcases hpt : f.ptype <;> simp [hpt] <;> split <;>
    first
      | rfl
      | (split <;> rfl)
      | (split <;> (try split) <;> rfl)

lemma id3_step_lookup (flag : Bool) (name : String) (st : ReadPics) (f : ApicFrame)
    (h : (List.lookup name st.artist_images).isSome) :
    List.lookup name ((id3_pic_step flag st f).artist_images) =
      (if f.ptype == PicType.artistPic && f.desc == name then some (apic_to_temp f)
       else List.lookup name st.artist_images) := by
  rw [id3_step_images]
  by_cases hpt : (f.ptype == PicType.artistPic) = true
  · rw [if_pos hpt]
    by_cases hd : f.desc = name
    · subst hd
      rcases hl : List.lookup f.desc st.artist_images with _ | v
      · rw [hl] at h
        simp at h
      · have hsome : (List.lookup f.desc st.artist_images).isSome := by
          rw [hl]; rfl
        show List.lookup f.desc
          (aupdate f.desc (apic_to_temp f) st.artist_images) = _
        rw [lookup_aupdate_self f.desc (apic_to_temp f) st.artist_images hsome]
        simp [hpt]
    · have hb : (f.desc == name) = false := by simp [hd]
      have hcond : (f.ptype == PicType.artistPic && f.desc == name) = false := by
        simp [hb]
      rw [hcond]
      simp only [Bool.false_eq_true, if_false]
      rcases hl : List.lookup f.desc st.artist_images with _ | v
      · rfl
      · exact lookup_aupdate_ne f.desc name (apic_to_temp f) st.artist_images
          (fun hh => hd hh.symm)
  · have hpt2 : (f.ptype == PicType.artistPic) = false := by
      simpa using hpt
    rw [hpt2]
    simp

lemma vc_step_lookup (flag : Bool) (name : String) (st : ReadPics) (f : ApicFrame)
    (h : (List.lookup name st.artist_images).isSome) :
    List.lookup name ((vc_pic_step flag st f).artist_images) =
      (if f.ptype == PicType.artistPic && f.desc == name &&
          (apic_to_temp f).isSome then some (apic_to_temp f)
       else List.lookup name st.artist_images) := by
  rw [vc_step_images]
  by_cases hpt : (f.ptype == PicType.artistPic) = true
  · rw [if_pos hpt]
    by_cases hd : f.desc = name
    · subst hd
      rcases hl : List.lookup f.desc st.artist_images with _ | v
      · rw [hl] at h
        simp at h
      · rcases ha : apic_to_temp f with _ | p
        · simp [hpt, ha, hl]
        · have hsome : (List.lookup f.desc st.artist_images).isSome := by
            rw [hl]; rfl
          rw [lookup_aupdate_self f.desc (some p) st.artist_images hsome]
          simp [hpt, ha]
    · have hb : (f.desc == name) = false := by simp [hd]
      have hcond : (f.ptype == PicType.artistPic && f.desc == name &&
          (apic_to_temp f).isSome) = false := by
        simp [hb]
      rw [hcond]
      simp only [Bool.false_eq_true, if_false]
      rcases hl : List.lookup f.desc st.artist_images with _ | v
      · rfl
      · rcases ha : apic_to_temp f with _ | p
        · rfl
        · exact lookup_aupdate_ne f.desc name (some p) st.artist_images
            (fun hh => hd hh.symm)
  · have hpt2 : (f.ptype == PicType.artistPic) = false := by
      simpa using hpt
    rw [hpt2]
    simp

lemma id3_step_lookup_isSome (flag : Bool) (name : String) (st : ReadPics)
    (f : ApicFrame) (h : (List.lookup name st.artist_images).isSome) :
    (List.lookup name ((id3_pic_step flag st f).artist_images)).isSome := by
  rw [id3_step_lookup flag name st f h]
  split
  · rfl
  · exact h

lemma vc_step_lookup_isSome (flag : Bool) (name : String) (st : ReadPics)
    (f : ApicFrame) (h : (List.lookup name st.artist_images).isSome) :
    (List.lookup name ((vc_pic_step flag st f).artist_images)).isSome := by
  rw [vc_step_lookup flag name st f h]
  split
  · rfl
  · exact h

lemma foldl_some_option (frames : List ApicFrame) (p : ApicFrame → Bool)
    (u : ApicFrame → Option Nat) (i : Option Nat) :
    frames.foldl (fun acc f => if p f then some (u f) else acc) (some i) =
      some (frames.foldl (fun acc f => if p f then u f else acc) i) := by
  induction frames generalizing i with
  | nil => rfl
  | cons f rest ih =>
      simp only [List.foldl_cons]
      by_cases hp : p f = true
      · rw [if_pos hp, if_pos hp, ih]
      · rw [if_neg hp, if_neg hp, ih]

lemma id3_fold_lookup (flag : Bool) (name : String) (frames : List ApicFrame) :
    ∀ st : ReadPics, (List.lookup name st.artist_images).isSome →
    List.lookup name ((frames.foldl (id3_pic_step flag) st).artist_images) =
      frames.foldl
        (fun acc f =>
          if f.ptype == PicType.artistPic && f.desc == name
          then some (apic_to_temp f) else acc)
        (List.lookup name st.artist_images) := by
  induction frames with
  | nil => intro st _; rfl
  | cons f rest ih =>
      intro st h
      simp only [List.foldl_cons]
      rw [ih _ (id3_step_lookup_isSome flag name st f h),
        id3_step_lookup flag name st f h]

lemma vc_fold_lookup (flag : Bool) (name : String) (frames : List ApicFrame) :
    ∀ st : ReadPics, (List.lookup name st.artist_images).isSome →
    List.lookup name ((frames.foldl (vc_pic_step flag) st).artist_images) =
      frames.foldl
        (fun acc f =>
          if f.ptype == PicType.artistPic && f.desc == name &&
              (apic_to_temp f).isSome
          then some (apic_to_temp f) else acc)
        (List.lookup name st.artist_images) := by
  induction frames with
  | nil => intro st _; rfl
  | cons f rest ih =>
      intro st h
      simp only [List.foldl_cons]
      rw [ih _ (vc_step_lookup_isSome flag name st f h),
        vc_step_lookup flag name st f h]

/-- C8 amended: in both the ID3 and the Vorbis-comment readers an
ARTIST-type embedded picture is attached to an artist through an exact
dictionary lookup of the raw picture description against the artist name —
not a case-insensitive trimmed comparison. An artist ends up with exactly
the validated payload of the last ARTIST frame whose description equals
the name byte for byte (for Vorbis, the last such frame whose payload
validates), and with no image when no such frame exists. -/
theorem c8_exact_match (flag : Bool) (names : List String)
    (frames : List ApicFrame) (name : String) (hmem : name ∈ names) :
    List.lookup name ((id3_pic_pass flag names frames).artist_images) =
      some (id3_final_artist_image name frames) ∧
    List.lookup name ((vc_pic_pass flag names frames).artist_images) =
      some (vc_final_artist_image name frames) := by
  have hinit := init_images_lookup names name hmem
  have hs : (List.lookup name
      ((⟨none, none, names.map (fun a => (a, none))⟩ : ReadPics)).artist_images).isSome := by
    simp only []
    rw [hinit]
    rfl
  constructor
  · rw [id3_pic_pass, id3_fold_lookup flag name frames _ hs]
    simp only []
    rw [hinit, foldl_some_option]
    rfl
  · rw [vc_pic_pass, vc_fold_lookup flag name frames _ hs]
    simp only []
    rw [hinit, foldl_some_option]
    rfl

/-- C9 amended: within a batch the artists dictionary obeys the claimed
rule — a later occurrence of a known artist name leaves the dictionary
untouched when the stored image is present or the occurrence carries no
materialized image, and only backfills a still-missing image — but the
albums dictionary does not: non-image metadata of a known key is kept from
the first occurrence, yet any later occurrence carrying a materialized
image overwrites the stored album image (the source guard inspects the
outer wrapper dict, which never holds an image, so it never protects the
stored one). -/
theorem c9_accumulator_rules (d : List (String × BatchArtist))
    (da : List (AlbumKey × BatchAlbum)) (art : ArtistMeta) (e : BatchArtist)
    (ea : BatchAlbum) (i j : Nat) (m : SongMeta) (alb : AlbumMeta) :
    (List.lookup art.name d = some e → e.image.isSome →
      add_artist_step d art = d) ∧
    (List.lookup art.name d = some e → e.image = none →
      make_tempfile_from_apic_frame art.image = some i →
      List.lookup art.name (add_artist_step d art) = some ⟨e.name, some i⟩) ∧
    (List.lookup art.name d = some e →
      make_tempfile_from_apic_frame art.image = none →
      add_artist_step d art = d) ∧
    (m.album = some alb →
      List.lookup (alb.name, alb.artist.map (fun a => a.name)) da = some ea →
      make_tempfile_from_apic_frame alb.image = some j →
      List.lookup (alb.name, alb.artist.map (fun a => a.name))
        ((add_album_from_metadata m da).1) = some { ea with image := some j }) ∧
    (m.album = some alb →
      List.lookup (alb.name, alb.artist.map (fun a => a.name)) da = some ea →
      make_tempfile_from_apic_frame alb.image = none →
      (add_album_from_metadata m da).1 = da) := by
  refine ⟨?_, ?_, ?_, ?_, ?_⟩
  · intro hl himg
    obtain ⟨v, hv⟩ := Option.isSome_iff_exists.mp himg
    simp [add_artist_step, hl, hv]
  · intro hl himg hmk
    have hsome : (List.lookup art.name d).isSome := by rw [hl]; rfl
    simp only [add_artist_step, hl, hmk, himg, Option.isSome_some,
      Option.isNone_none, Bool.and_self, if_true]
    exact lookup_aupdate_self art.name ⟨e.name, some i⟩ d hsome
  · intro hl hmk
    simp [add_artist_step, hl, hmk]
  · intro hm hl hmk
    have hsome : (List.lookup (alb.name, alb.artist.map (fun a => a.name)) da).isSome := by
      rw [hl]; rfl
    simp only [add_album_from_metadata, hm, hmk, hl]
    exact lookup_aupdate_self _ _ da hsome
  · intro hm hl hmk
    simp [add_album_from_metadata, hm, hmk, hl]

/-- Witness for C9 amended: concrete dictionaries exercising the artist
no-replace rule and the album overwrite. -/
theorem c9_accumulator_rules_witness :
    (add_artist_step [("X", ⟨"X", some 5⟩)] ⟨"X", some ⟨6, true, true⟩⟩ =
      [("X", ⟨"X", some 5⟩)]) ∧
    (List.lookup ("A", some "X")
      ((add_album_from_metadata
        { name := "s", year := 1, genre := none, duration := 10, number := 1,
          image := none, artists := [],
          album := some { name := "A", artist := some ⟨"X", none⟩,
                          image := some ⟨9, true, true⟩, genre := some "G2",
                          year := none } }
        [(("A", some "X"),
          { name := "A", artist := some ⟨"X", none⟩, image := some 5,
            genre := some "G1", year := some 1991 })]).1) =
      some { name := "A", artist := some ⟨"X", none⟩, image := some 9,
             genre := some "G1", year := some 1991 }) := by
  constructor
  · exact (c9_accumulator_rules [("X", ⟨"X", some 5⟩)] [] ⟨"X", some ⟨6, true, true⟩⟩
      ⟨"X", some 5⟩ ⟨"A", none, none, none, none⟩ 0 0
      { name := "s", year := 1, genre := none, duration := 10, number := 1,
        image := none, artists := [], album := none }
      ⟨"A", none, none, none, none⟩).1 rfl rfl
  · exact (c9_accumulator_rules [] [(("A", some "X"),
      { name := "A", artist := some ⟨"X", none⟩, image := some 5,
        genre := some "G1", year := some 1991 })]
      ⟨"X", none⟩ ⟨"X", none⟩
      { name := "A", artist := some ⟨"X", none⟩, image := some 5,
        genre := some "G1", year := some 1991 } 0 9
      { name := "s", year := 1, genre := none, duration := 10, number := 1,
        image := none, artists := [],
        album := some { name := "A", artist := some ⟨"X", none⟩,
                        image := some ⟨9, true, true⟩, genre := some "G2",
                        year := none } }
      { name := "A", artist := some ⟨"X", none⟩, image := some ⟨9, true, true⟩,
        genre := some "G2", year := none }).2.2.2.1 rfl (by decide) rfl

lemma contains_eq_true_of_mem {α : Type} [BEq α] [LawfulBEq α] {l : List α}
    {x : α} (h : x ∈ l) : l.contains x = true :=
  List.elem_eq_true_of_mem h

/-- C10: during reconciliation a batch album is created only when no
persisted album carries the same name — the check compares by album name
alone, so a batch album (N, artist B) is skipped whenever any album named
N exists, no matter which artist owns it, even though persistence is
unique on the (name, artist) pair. The hypothesis records the accumulator
invariant that a batch album entry stores the name of its key. -/
theorem c10_album_skip_by_name (st : Store)
    (albums : List (AlbumKey × BatchAlbum))
    (artists : List (String × BatchArtist))
    (hconsist : ∀ kv ∈ albums, (kv : AlbumKey × BatchAlbum).2.name = kv.1.1) :
    ((fetch_or_create_albums_and_artists st albums artists).1.albums =
      st.albums ++ albums_to_create st albums (batch_artist_map st artists)) ∧
    ∀ c ∈ albums_to_create st albums (batch_artist_map st artists),
      ∀ a ∈ st.albums, c.name ≠ a.name := by
  refine ⟨rfl, ?_⟩
  intro c hc a ha hname
  rw [albums_to_create] at hc
  obtain ⟨kv, hkv, hgc⟩ := List.mem_map.mp hc
  obtain ⟨hkv_mem, hq⟩ := List.mem_filter.mp hkv
  have hcname : c.name = kv.1.1 := by
    rw [← hgc]
    exact hconsist kv hkv_mem
  have hkeys : kv.1.1 ∈ albums.map (fun kv => kv.1.1) :=
    List.mem_map.mpr ⟨kv, hkv_mem, rfl⟩
  have ha0 : a ∈ st.albums.filter
      (fun x => (albums.map (fun kv => kv.1.1)).contains x.name) := by
    refine List.mem_filter.mpr ⟨ha, ?_⟩
    apply contains_eq_true_of_mem
    rw [← hname, hcname]
    exact hkeys
  have hnm : kv.1.1 ∈ (st.albums.filter
      (fun x => (albums.map (fun kv => kv.1.1)).contains x.name)).map
        (fun x => x.name) := by
    refine List.mem_map.mpr ⟨a, ha0, ?_⟩
    rw [← hname, hcname]
  have := contains_eq_true_of_mem hnm
  rw [this] at hq
  simp at hq

/-- Witness for C10: a persisted album (N, owned by A) blocks creation of
a batch album (N, keyed to artist B). -/
theorem c10_album_skip_by_name_witness :
    ((fetch_or_create_albums_and_artists
        ⟨[⟨"A", none⟩], [⟨"N", some "A", none, none, none⟩], []⟩
        [(("N", some "B"), ⟨"N", some ⟨"B", none⟩, none, none, none⟩)]
        [("B", ⟨"B", none⟩)]).1.albums =
      (⟨[⟨"A", none⟩], [⟨"N", some "A", none, none, none⟩], []⟩ : Store).albums ++
        albums_to_create ⟨[⟨"A", none⟩], [⟨"N", some "A", none, none, none⟩], []⟩
          [(("N", some "B"), ⟨"N", some ⟨"B", none⟩, none, none, none⟩)]
          (batch_artist_map ⟨[⟨"A", none⟩], [⟨"N", some "A", none, none, none⟩], []⟩
            [("B", ⟨"B", none⟩)])) ∧
    ∀ c ∈ albums_to_create ⟨[⟨"A", none⟩], [⟨"N", some "A", none, none, none⟩], []⟩
        [(("N", some "B"), ⟨"N", some ⟨"B", none⟩, none, none, none⟩)]
        (batch_artist_map ⟨[⟨"A", none⟩], [⟨"N", some "A", none, none, none⟩], []⟩
          [("B", ⟨"B", none⟩)]),
      ∀ a ∈ (⟨[⟨"A", none⟩], [⟨"N", some "A", none, none, none⟩], []⟩ : Store).albums,
        c.name ≠ a.name := by
  refine c10_album_skip_by_name _ _ _ ?_
  decide

/-- C2 amended: uploading the same tagged single-artist file in two
separate batches creates exactly one Song, one Artist and one Album,
provided the album-name tag is nonempty (truthy): the first batch persists
one row of each, and the second batch recognizes the artist and album by
name and the song by its (name, album name, artist-name set) de-dup key
and creates nothing, leaving the store unchanged. The album artist is the
song artist, as the codecs guarantee for a single-artist file without an
explicit album-artist frame. For an empty album name the guard fails: the
Song is persisted with no album while the Album row is created, and the
de-dup key misses on re-upload (see the counterexample). -/
theorem c2_reupload_idempotent (n : String) (y : Int) (g : Option String)
    (d : Nat) (num : Int) (img aimg aimg2 albimg : Option Apic)
    (albg : Option String) (alby : Option Int) (an aname : String)
    (han : an ≠ "") (fid : Nat) (fn : String) :
    (upload_files
        ((upload_files ⟨[], [], []⟩
          [single_artist_file n y g d num img aimg aimg2 albimg albg alby an aname fid fn]).1)
        [single_artist_file n y g d num img aimg aimg2 albimg albg alby an aname fid fn]).1 =
      ((upload_files ⟨[], [], []⟩
        [single_artist_file n y g d num img aimg aimg2 albimg albg alby an aname fid fn]).1) ∧
    ((upload_files ⟨[], [], []⟩
      [single_artist_file n y g d num img aimg aimg2 albimg albg alby an aname fid fn]).1).artists.length = 1 ∧
    ((upload_files ⟨[], [], []⟩
      [single_artist_file n y g d num img aimg aimg2 albimg albg alby an aname fid fn]).1).albums.length = 1 ∧
    ((upload_files ⟨[], [], []⟩
      [single_artist_file n y g d num img aimg aimg2 albimg albg alby an aname fid fn]).1).songs.length = 1 := by
  have htr : (an != "") = true := by simp [han]
  by_cases hc : ((make_tempfile_from_apic_frame aimg2).isSome &&
      (make_tempfile_from_apic_frame aimg).isNone) = true <;>
    rcases him3 : make_tempfile_from_apic_frame albimg with _ | p3 <;>
      simp [single_artist_file, upload_files, extract_metadata, process_file,
        add_artists_from_metadata, merged_artists, add_artist_step,
        add_album_from_metadata, set_album_genres, infer_album_genre,
        album_song_map_entry, songs_with_album, genre_counts, pick_max_genre,
        fetch_or_create_albums_and_artists, artists_to_create, batch_artist_map,
        albums_to_create, create_songs, dedup_keep_first, find_album_for,
        same_name_set, py_truthy_str, mk_untagged_song, untagged_of, aupdate,
        List.lookup, List.contains, List.elem, hc, him3, htr]

/-- C2 counterexample: re-uploading the same tagged file is not idempotent
for every tagged file. With an empty album-name tag (an ALBUM or TALB
frame whose text is empty), the first batch creates one Artist, one Album
(named by the empty string) and one Song — but the truthiness guard on
album attachment leaves the Song with no album, so its persisted de-dup
key is (name, None, artist set) while the batch key of the second upload
is (name, empty string, artist set): the guard misses and a second Song
row is created. -/
theorem c2_counterexample :
    (((upload_files ⟨[], [], []⟩
        [single_artist_file "s" 2000 (some "Rap") 100 1 none none none none
          (some "Rap") (some 2000) "" "A" 1 "a.mp3"]).1).artists.length = 1 ∧
     ((upload_files ⟨[], [], []⟩
        [single_artist_file "s" 2000 (some "Rap") 100 1 none none none none
          (some "Rap") (some 2000) "" "A" 1 "a.mp3"]).1).albums.length = 1 ∧
     ((upload_files ⟨[], [], []⟩
        [single_artist_file "s" 2000 (some "Rap") 100 1 none none none none
          (some "Rap") (some 2000) "" "A" 1 "a.mp3"]).1).songs.length = 1) ∧
    ((upload_files
        ((upload_files ⟨[], [], []⟩
          [single_artist_file "s" 2000 (some "Rap") 100 1 none none none none
            (some "Rap") (some 2000) "" "A" 1 "a.mp3"]).1)
        [single_artist_file "s" 2000 (some "Rap") 100 1 none none none none
          (some "Rap") (some 2000) "" "A" 1 "a.mp3"]).1).songs.length = 2 := by
  exact ⟨⟨by decide, by decide, by decide⟩, by decide⟩

/-- Witness for C2 amended at a concrete file (names A and N, no images). -/
theorem c2_reupload_idempotent_witness :
    (upload_files
        ((upload_files ⟨[], [], []⟩
          [single_artist_file "s" 2000 (some "Rap") 100 1 none none none none
            (some "Rap") (some 2000) "N" "A" 1 "a.mp3"]).1)
        [single_artist_file "s" 2000 (some "Rap") 100 1 none none none none
          (some "Rap") (some 2000) "N" "A" 1 "a.mp3"]).1 =
      ((upload_files ⟨[], [], []⟩
        [single_artist_file "s" 2000 (some "Rap") 100 1 none none none none
          (some "Rap") (some 2000) "N" "A" 1 "a.mp3"]).1) := by
  exact (c2_reupload_idempotent "s" 2000 (some "Rap") 100 1 none none none none
    (some "Rap") (some 2000) "N" "A" (by decide) 1 "a.mp3").1

/-- Witness for C8 amended: with one artist and one ARTIST frame whose
description matches exactly, the validated payload is attached. -/
theorem c8_exact_match_witness :
    List.lookup "Eminem"
      ((id3_pic_pass true ["Eminem"]
        [{ ptype := PicType.artistPic, desc := "Eminem", payload := 7,
           valid := true }]).artist_images) =
      some (id3_final_artist_image "Eminem"
        [{ ptype := PicType.artistPic, desc := "Eminem", payload := 7,
           valid := true }]) := by
  exact (c8_exact_match true ["Eminem"] _ "Eminem" (List.mem_singleton.mpr rfl)).1

end Tagtrack
